import Mathlib

/-!
Shallow embedding of the hass-chargeamps integration
(`custom_components/chargeamps/__init__.py` and
`custom_components/chargeamps/sensor.py`) and proofs about its claims.

Python dictionaries are modelled as insertion-ordered association lists,
exceptions as `Except` values carrying a `PyErr`, log output as an explicit
list of `LogEntry` values, and Python floats are idealized as rationals.
-/

namespace Chargeamps

/-- Python exception outcomes that the embedded code can produce. -/
inductive PyErr
  | attributeError (obj attrName : String)
  | typeError (msg : String)
  | keyError (key : String)
  | indexError
  | nameError (varName : String)
  | raised (msg : String)
deriving DecidableEq

/-- Logging levels used by the component (`_LOGGER.debug/info/warning/error`). -/
inductive LogLevel
  | debug
  | info
  | warning
  | error
deriving DecidableEq

/-- One log record emitted by the embedded code. -/
structure LogEntry where
  level : LogLevel
  msg : String
deriving DecidableEq

/-- View of an `Except` value as a sum, used to derive decidable
equality. -/
def exceptToSum {ε α : Type} : Except ε α → ε ⊕ α
  | Except.error e => Sum.inl e
  | Except.ok a => Sum.inr a

instance {ε α : Type} [DecidableEq ε] [DecidableEq α] : DecidableEq (Except ε α) := fun x y =>
  decidable_of_iff (exceptToSum x = exceptToSum y) (by
    cases x <;> cases y <;> simp [exceptToSum])

/-- Python dict lookup `d.get(k)` / `d[k]` on an insertion-ordered
association list: the stored value for the first matching key, if any. -/
def dictGet {κ α : Type} [DecidableEq κ] (k : κ) : List (κ × α) → Option α
  | [] => none
  | e :: rest => if e.1 = k then some e.2 else dictGet k rest

/-- Python dict assignment `d[k] = v`: overwrite in place if the key is
present (keeping its position), otherwise append at the end. -/
def dictInsert {κ α : Type} [DecidableEq κ] (k : κ) (v : α) : List (κ × α) → List (κ × α)
  | [] => [(k, v)]
  | e :: rest => if e.1 = k then (k, v) :: rest else e :: dictInsert k v rest

/-- Modelled from the spec: one per-phase measurement of the vendor type
`chargeamps.base` (phase label, current in A, voltage in V); the vendor
client library is not part of this repository. Floats are idealized as
rationals. -/
structure Measurement where
  phase : String
  current : Rat
  voltage : Rat
deriving DecidableEq

/-- Modelled from the spec: vendor type `ChargePointConnectorStatus`
(connector identity, textual status, cumulative energy in kWh, optional
per-phase measurements). -/
structure ChargePointConnectorStatus where
  charge_point_id : String
  connector_id : Nat
  status : String
  total_consumption_kwh : Rat
  measurements : Option (List Measurement)
deriving DecidableEq

/-- Modelled from the spec: vendor type `ChargePointStatus`, a sequence of
connector-status snapshots for one charge point, replaced wholesale on each
refresh. -/
structure ChargePointStatus where
  connector_statuses : List ChargePointConnectorStatus
deriving DecidableEq

/-- Modelled from the spec: vendor type `Connector` (charge-point id +
connector index, connector type). -/
structure Connector where
  charge_point_id : String
  connector_id : Nat
  type : String
deriving DecidableEq

/-- Modelled from the spec: vendor type `ChargePoint` (identifier, display
name, hardware type, list of connectors). -/
structure ChargePoint where
  id : String
  name : String
  type : String
  connectors : List Connector
deriving DecidableEq

/-- Python `str.lower()`, idealized as per-character lowercasing. -/
def pyLower (s : String) : String := ⟨s.data.map Char.toLower⟩

/-- Python `round` to an integer with banker's rounding (round half to
even), idealized over the rationals. -/
def pyRoundHalfEven (q : Rat) : Int :=
  let f := Rat.floor q
  let frac := q - (f : Rat)
  if frac < 1 / 2 then f
  else if 1 / 2 < frac then f + 1
  else if f % 2 = 0 then f else f + 1

/-- Python `round(q, ndigits)` idealized over the rationals. -/
def pyRound (q : Rat) (ndigits : Nat) : Rat :=
  ((pyRoundHalfEven (q * (10 : Rat) ^ ndigits) : Rat)) / (10 : Rat) ^ ndigits

/-- `MIN_TIME_BETWEEN_UPDATES = timedelta(seconds=30)` from `__init__.py`
line 24, in seconds. -/
def MIN_TIME_BETWEEN_UPDATES : Nat := 30

/-- The process-wide storage `hass.data[DOMAIN_DATA]` as populated by
`async_setup`: the `info`, `chargepoint` and `connector` dictionaries
(`__init__.py` lines 91-93, 131-135, 163-166). -/
structure CacheState where
  info : List (String × ChargePoint)
  chargepoint : List (String × ChargePointStatus)
  connector : List ((String × Nat) × ChargePointConnectorStatus)
deriving DecidableEq

/-- State owned by the throttled handler: the timestamp (in seconds) of the
last completed `update_data` call recorded by the `Throttle` wrapper, and
the shared cache. -/
structure HandlerState where
  lastUpdate : Option Nat
  cache : CacheState
deriving DecidableEq

/-- The connector-dictionary effect of the loop in `update_data`
(`__init__.py` lines 164-166): each connector status of the snapshot is
written under the key `(charge_point_id, connector_id)` in order. -/
def insertAll (cpId : String) (l : List ChargePointConnectorStatus)
    (d : List ((String × Nat) × ChargePointConnectorStatus)) :
    List ((String × Nat) × ChargePointConnectorStatus) :=
  l.foldl (fun acc cs => dictInsert (cpId, cs.connector_id) cs acc) d

/-- Body of `ChargeampsHandler.update_data` (`__init__.py` lines 158-168),
with the outcome of `self.client.get_chargepoint_status(charge_point_id)`
passed explicitly as `fetch`. On success the charge-point snapshot is
stored and every connector status of the snapshot is written to the
connector dictionary; on any exception the error is logged and no cache
entry is touched (the broad `except` swallows the exception, so nothing
propagates). The rendering of the `STATUS = %s` debug payload is elided. -/
def update_data_body (cpId : String) (fetch : Except String ChargePointStatus)
    (c : CacheState) : CacheState × List LogEntry :=
  match fetch with
  | Except.error e =>
      (c, [⟨LogLevel.debug, "Update data for chargepoint " ++ cpId⟩,
           ⟨LogLevel.error, "Could not update data - " ++ e⟩])
  | Except.ok status =>
      let c1 : CacheState := { c with chargepoint := dictInsert cpId status c.chargepoint }
      let c2 : CacheState := { c1 with connector := insertAll cpId status.connector_statuses c1.connector }
      (c2, ⟨LogLevel.debug, "Update data for chargepoint " ++ cpId⟩ ::
           ⟨LogLevel.debug, "STATUS"⟩ ::
           status.connector_statuses.map (fun cs =>
             ⟨LogLevel.debug, "Update data for chargepoint " ++ cpId ++ " connector " ++ toString cs.connector_id⟩))

/-- Modelled from the spec: `update_data` is decorated with
`@Throttle(MIN_TIME_BETWEEN_UPDATES)`; the `Throttle` wrapper lives in the
host runtime (`homeassistant.util`), not in this repository. Per the spec,
the wrapper keeps a single timer per handler, shared across all
charge-point ids: if the minimum interval has not elapsed since the last
completed call, the call is a no-op (the wrapped body does not run and
nothing is logged); otherwise the body runs and the timer is set to `now`
after the body returns (also when the body swallowed a fetch failure). -/
def update_data (now : Nat) (cpId : String) (fetch : Except String ChargePointStatus)
    (s : HandlerState) : HandlerState × List LogEntry :=
  match s.lastUpdate with
  | some t =>
      if now < t + MIN_TIME_BETWEEN_UPDATES then (s, [])
      else
        let r := update_data_body cpId fetch s.cache
        (⟨some now, r.1⟩, r.2)
  | none =>
      let r := update_data_body cpId fetch s.cache
      (⟨some now, r.1⟩, r.2)

/-- Whether a call entering the `Throttle` wrapper at time `now` reaches
the wrapped body (so that the vendor fetch actually happens). -/
def throttleOpen (s : HandlerState) (now : Nat) : Bool :=
  match s.lastUpdate with
  | none => true
  | some t => !(now < t + MIN_TIME_BETWEEN_UPDATES)

/-- A sequence of `update_data` invocations: each call carries its arrival
time, the charge-point id it passes, and the outcome its vendor fetch
would have. -/
def runCalls (s : HandlerState)
    (calls : List (Nat × String × Except String ChargePointStatus)) : HandlerState :=
  calls.foldl (fun st c => (update_data c.1 c.2.1 c.2.2 st).1) s

/-- Fields assigned by `ChargeampsHandler.__init__` (`__init__.py` lines
117-123); `hass` and `client` handles are elided. -/
structure ChargeampsHandler where
  charge_point_ids : List String
  default_charge_point_id : String
  default_connector_id : Int
deriving DecidableEq

/-- `ChargeampsHandler.__init__`: `default_charge_point_id =
charge_point_ids[0]` raises `IndexError` when the list is empty, otherwise
the defaults are the first id and connector 1. -/
def ChargeampsHandler.make (ids : List String) : Except PyErr ChargeampsHandler :=
  match ids with
  | [] => Except.error PyErr.indexError
  | x :: _ => Except.ok ⟨ids, x, 1⟩

/-- A value held in a service-call parameter mapping (`call.data`): the
`chargepoint` parameter is a string id, `connector` and `max_current` are
numbers. -/
inductive PVal
  | s (v : String)
  | n (v : Int)
deriving DecidableEq

/-- Python `param.get(key, default)` on the service-call data. -/
def pyGetD (p : List (String × PVal)) (k : String) (d : PVal) : PVal :=
  (dictGet k p).getD d

/-- The triple a mode-change service call hands to
`set_connector_mode(charge_point_id, connector_id, mode)`
(`__init__.py` lines 137-141): the read-modify-write against the vendor
settings object is applied to exactly this target. -/
structure ModeCall where
  charge_point_id : PVal
  connector_id : PVal
  mode : String
deriving DecidableEq

/-- `ChargeampsHandler.async_enable_ev` (`__init__.py` lines 180-184):
unspecified `chargepoint`/`connector` parameters default to
`default_charge_point_id` and `default_connector_id`; mode `"On"`. -/
def async_enable_ev (h : ChargeampsHandler) (p : List (String × PVal)) : ModeCall :=
  ⟨pyGetD p "chargepoint" (PVal.s h.default_charge_point_id),
   pyGetD p "connector" (PVal.n h.default_connector_id), "On"⟩

/-- `ChargeampsHandler.async_disable_ev` (`__init__.py` lines 186-190):
same defaulting, mode `"Off"`. -/
def async_disable_ev (h : ChargeampsHandler) (p : List (String × PVal)) : ModeCall :=
  ⟨pyGetD p "chargepoint" (PVal.s h.default_charge_point_id),
   pyGetD p "connector" (PVal.n h.default_connector_id), "Off"⟩

/-- The triple `async_set_max_current` hands to
`set_connector_max_current(charge_point_id, connector_id, max_current)`. -/
structure MaxCurrentCall where
  charge_point_id : PVal
  connector_id : PVal
  max_current : PVal
deriving DecidableEq

/-- `ChargeampsHandler.async_set_max_current` (`__init__.py` lines
170-178). `param["max_current"]` raising `KeyError` is caught and a
warning is logged, but the local variable `max_current` is then left
unassigned, and line 178 still reads it: Python raises
`UnboundLocalError`, a subclass of `NameError`, which nothing catches. -/
def async_set_max_current (h : ChargeampsHandler) (p : List (String × PVal)) :
    List LogEntry × Except PyErr MaxCurrentCall :=
  match dictGet "max_current" p with
  | some v =>
      ([], Except.ok ⟨pyGetD p "chargepoint" (PVal.s h.default_charge_point_id),
                      pyGetD p "connector" (PVal.n h.default_connector_id), v⟩)
  | none =>
      ([⟨LogLevel.warning, "Current value is not correct."⟩],
       Except.error (PyErr.nameError "max_current"))

/-- Outcome of `async_setup` as far as it runs: the boolean it returns,
the tracked charge-point id list handed to the handler, the populated
`info` dictionary, and the log records. -/
structure SetupOutcome where
  result : Bool
  charge_point_ids : List String
  info : List (String × ChargePoint)
  logs : List LogEntry
deriving DecidableEq

/-- The tail of `async_setup` (`__init__.py` lines 89-111): construct the
handler (`charge_point_ids[0]` raises `IndexError` on an empty list), then
`await handler.update_info()` whose vendor fetch failure propagates and
aborts setup; on success the `info` dictionary is populated with the
charge points whose id is tracked (`__init__.py` lines 149-154) and setup
returns `True`. -/
def finishSetup (ids : List String) (logs0 : List LogEntry)
    (fetchChargepoints : Except String (List ChargePoint)) : Except PyErr SetupOutcome :=
  match ids with
  | [] => Except.error PyErr.indexError
  | _ :: _ =>
      match fetchChargepoints with
      | Except.error e => Except.error (PyErr.raised e)
      | Except.ok cps =>
          let r := cps.foldl
            (fun (acc : List (String × ChargePoint) × List LogEntry) cp =>
              if cp.id ∈ ids then
                (dictInsert cp.id cp acc.1,
                 acc.2 ++ [⟨LogLevel.info, "Update info for chargepoint " ++ cp.id⟩])
              else acc)
            ([], [])
          Except.ok ⟨true, ids, r.1, logs0 ++ r.2⟩

/-- `async_setup` from the chargepoint check onward (`__init__.py` lines
73-111), with the vendor calls passed as explicit outcomes: `fetchStatus`
is the per-id result of `client.get_chargepoint_status` used for
validation of configured ids, and `fetchChargepoints` the result of
`client.get_chargepoints` used for discovery and by `update_info`.
For configured ids, a validation failure is caught, logged with
`_LOGGER.error`, and the loop continues with the id still in the list;
setup only returns `False` when the configured list is empty. -/
def async_setup_model (configured : Option (List String))
    (fetchStatus : String → Except String ChargePointStatus)
    (fetchChargepoints : Except String (List ChargePoint)) : Except PyErr SetupOutcome :=
  match configured with
  | some ids =>
      let vlogs : List LogEntry := ids.map (fun cp =>
        match fetchStatus cp with
        | Except.ok _ => ⟨LogLevel.info, "Adding chargepoint " ++ cp⟩
        | Except.error _ => ⟨LogLevel.error, "Error adding chargepoint " ++ cp⟩)
      if ids.length = 0 then
        Except.ok ⟨false, ids, [], vlogs ++ [⟨LogLevel.error, "No chargepoints found"⟩]⟩
      else finishSetup ids vlogs fetchChargepoints
  | none =>
      match fetchChargepoints with
      | Except.error e => Except.error (PyErr.raised e)
      | Except.ok cps =>
          finishSetup (cps.map (fun cp => cp.id))
            (cps.map (fun cp => ⟨LogLevel.info, "Discovered chargepoint " ++ cp.id⟩))
            fetchChargepoints

/-- Modelled from the spec: `DOMAIN` from `const.py`, which is not under
`src/`; the integration domain string used in unique ids is
`"chargeamps"`. -/
def DOMAIN : String := "chargeamps"

/-- An attribute value stored in an entity's `_attributes` dictionary. -/
inductive AttrVal
  | str (v : String)
  | num (v : Rat)
deriving DecidableEq

/-- The identity fields assigned by `ChargeampsEntity.__init__`
(`sensor.py` lines 52-60); `hass`, `handler` and the mutable display state
are elided here. -/
structure EntityFields where
  name : String
  charge_point_id : String
  connector_id : Nat
deriving DecidableEq

/-- `ChargeampsEntity.unique_id` (`sensor.py` lines 86-89):
the f-string stringifies the connector id. -/
def ChargeampsEntity.unique_id (cpId : String) (connId : Nat) : String :=
  DOMAIN ++ "_" ++ cpId ++ "_" ++ toString connId

/-- `ChargeampsPowerSensor.unique_id` (`sensor.py` lines 193-196):
the entity unique id with a `_power` suffix. `ChargeampsPowerSensor`
defines no `__init__`, so it is constructed through
`ChargeampsEntity.__init__` directly. -/
def ChargeampsPowerSensor.unique_id (cpId : String) (connId : Nat) : String :=
  ChargeampsEntity.unique_id cpId connId ++ "_power"

/-- `ChargeampsEntity.__init__` viewed as a constructor of the identity
fields. -/
def ChargeampsEntity.construct (name cpId : String) (connId : Nat) : Except PyErr EntityFields :=
  Except.ok ⟨name, cpId, connId⟩

/-- `ChargeampsSensor.__init__` (`sensor.py` lines 95-97) invokes
`super().__init__(self, hass, name, charge_point_id, connector_id)`:
together with the implicit `self` of the bound `super()` call this passes
six positional arguments to `ChargeampsEntity.__init__`, which accepts
five (`self, hass, name, charge_point_id, connector_id`), so Python raises
`TypeError` before any field is assigned and no `ChargeampsSensor` is ever
constructed. -/
def ChargeampsSensor.construct (_name _cpId : String) (_connId : Nat) : Except PyErr EntityFields :=
  Except.error (PyErr.typeError "ChargeampsEntity takes 5 positional arguments but 6 were given")

/-- Mutable display state of a `ChargeampsSensor` (`_state` is the
connector status text, or `None` before the first successful update). -/
structure SensorState where
  _state : Option String
  _attributes : List (String × AttrVal)
  _interviewed : Bool
deriving DecidableEq

/-- `ChargeampsEntity.interview` (`sensor.py` lines 62-69): line 63 reads
the charge-point info, then line 64 calls
`self.handler.get_connector_info(...)`; `ChargeampsHandler` defines no
method named `get_connector_info` (its methods are
`get_chargepoint_statuses`, `get_chargepoint_info`,
`get_connector_status`, `set_connector_mode`, `set_connector_max_current`,
`update_info`, `update_data`, `async_set_max_current`, `async_enable_ev`
and `async_disable_ev`), so Python raises `AttributeError` there, before
any attribute is assigned. The error carries the sensor state at the point
of the raise. -/
def interview (st : SensorState) : Except (PyErr × SensorState) SensorState :=
  Except.error (PyErr.attributeError "ChargeampsHandler" "get_connector_info", st)

/-- The cache-projection part of `ChargeampsSensor.async_update`
(`sensor.py` lines 117-127), taking the result of
`handler.get_connector_status` after the refresh: on `None`, return with
the display state unchanged; otherwise set `_state` to the status text and
the `total_consumption_kwh` attribute to the rounded energy, then run
`interview()` if the sensor has not been interviewed yet. -/
def chargeampsSensorProject (st : SensorState)
    (status : Option ChargePointConnectorStatus) : Except (PyErr × SensorState) SensorState :=
  match status with
  | none => Except.ok st
  | some cs =>
      let st1 : SensorState := { st with _state := some cs.status }
      let st2 : SensorState :=
        { st1 with _attributes :=
            dictInsert "total_consumption_kwh" (AttrVal.num (pyRound cs.total_consumption_kwh 3)) st1._attributes }
      if st2._interviewed then Except.ok st2 else interview st2

/-- `ChargeampsSensor.async_update` (`sensor.py` lines 104-127): run the
throttled `update_data` for this charge point, then project the cached
connector status into the display state. -/
def chargeampsSensorAsyncUpdate (now : Nat) (cpId : String) (connId : Nat)
    (fetch : Except String ChargePointStatus) (hs : HandlerState) (st : SensorState) :
    HandlerState × Except (PyErr × SensorState) SensorState :=
  let hs2 := (update_data now cpId fetch hs).1
  (hs2, chargeampsSensorProject st (dictGet (cpId, connId) hs2.cache.connector))

/-- Mutable display state of a `ChargeampsPowerSensor`. -/
structure PowerSensorState where
  _state : Option Rat
  _attributes : List (String × AttrVal)
deriving DecidableEq

/-- Python truthiness of the `measurements` value (`if measurements:`):
`None` and the empty list are falsy. -/
def pyTruthy (ms : Option (List Measurement)) : Bool :=
  match ms with
  | none => false
  | some [] => false
  | some (_ :: _) => true

/-- The measurement-projection part of `ChargeampsPowerSensor.async_update`
(`sensor.py` lines 172-191). When measurements are present: `_state` is
the rounded sum of `current * voltage` over the phases, `active_phase`
joins the phase labels with positive current, and for each measurement the
`<phase>_power` and `<phase>_current` attributes are set (keys
lower-cased) in list order. When measurements are absent or empty: after
`active_phase` is set to the empty string, the loop
`for phase in range(1, 4)` evaluates `f"L{phase.lower()}_{measure}"` with
`phase` bound to the integer 1; an `int` has no attribute `lower`, so
Python raises `AttributeError` right there — `_state` is never set to 0
and no per-phase attribute is written. -/
def powerProject (st : PowerSensorState) (ms : Option (List Measurement)) :
    Except (PyErr × PowerSensorState) PowerSensorState :=
  if pyTruthy ms then
    let l := ms.getD []
    let st1 : PowerSensorState :=
      { st with _state := some (pyRound (l.foldl (fun a m => a + m.current * m.voltage) 0) 0) }
    let active := String.intercalate " " ((l.filter (fun m => 0 < m.current)).map (fun m => m.phase))
    let st2 : PowerSensorState :=
      { st1 with _attributes := dictInsert "active_phase" (AttrVal.str active) st1._attributes }
    let st3 := l.foldl (fun (s : PowerSensorState) m =>
      { s with
          _attributes :=
            dictInsert (pyLower m.phase ++ "_current") (AttrVal.num (pyRound m.current 1))
              (dictInsert (pyLower m.phase ++ "_power") (AttrVal.num (pyRound (m.voltage * m.current) 0))
                s._attributes) }) st2
    Except.ok st3
  else
    let st1 : PowerSensorState :=
      { st with _attributes := dictInsert "active_phase" (AttrVal.str "") st._attributes }
    Except.error (PyErr.attributeError "int" "lower", st1)

/-- `ChargeampsPowerSensor.async_update` (`sensor.py` lines 156-191): the
method first awaits the throttled `update_data` (which can still mutate
the handler cache), then calls
`self.handler.get_connector_measurements(...)`; `ChargeampsHandler`
defines no method named `get_connector_measurements`, so Python raises
`AttributeError` there and the sensor display state is left unchanged —
the projection of lines 172-191 is never reached. -/
def powerSensorAsyncUpdate (now : Nat) (cpId : String)
    (fetch : Except String ChargePointStatus) (hs : HandlerState) (st : PowerSensorState) :
    HandlerState × Except (PyErr × PowerSensorState) PowerSensorState :=
  ((update_data now cpId fetch hs).1,
   Except.error (PyErr.attributeError "ChargeampsHandler" "get_connector_measurements", st))

/-! Concrete fixtures used by witnesses and counterexamples. -/

/-- An empty cache, as right after `async_setup` creates the dictionaries. -/
def cache0 : CacheState := ⟨[], [], []⟩

/-- A connector status left over from an earlier fetch (connector 2). -/
def csOld : ChargePointConnectorStatus := ⟨"CP1", 2, "Charging", 5, none⟩

/-- A connector status belonging to a fresh fetch (connector 1). -/
def csNew : ChargePointConnectorStatus := ⟨"CP1", 1, "Available", 0, none⟩

/-- A fresh charge-point snapshot reporting only connector 1. -/
def statusB : ChargePointStatus := ⟨[csNew]⟩

/-- A cache in which charge point CP1 still has a connector-2 entry from an
earlier fetch. -/
def cacheA : CacheState := ⟨[], [], [(("CP1", 2), csOld)]⟩

/-- A cache holding a connector-1 entry for CP1. -/
def cacheC : CacheState := ⟨[], [], [(("CP1", 1), csNew)]⟩

/-- Metadata of one configured charge point. -/
def cpMeta : ChargePoint := ⟨"CP1", "Home", "HALO", [⟨"CP1", 1, "Type2"⟩]⟩

/-- The measurement set of claim C5: L1 at 10 A / 230 V, L2 and L3 idle. -/
def c5Measurements : List Measurement := [⟨"L1", 10, 230⟩, ⟨"L2", 0, 230⟩, ⟨"L3", 0, 230⟩]

/-- A power sensor that has displayed nothing yet. -/
def emptyPowerState : PowerSensorState := ⟨none, []⟩

/-! Dictionary lemmas. -/

/-- Looking a key up after a Python dict assignment: the new value for the
assigned key, the old dictionary for every other key. -/
theorem dictGet_dictInsert {κ α : Type} [DecidableEq κ] (k k2 : κ) (v : α)
    (d : List (κ × α)) :
    dictGet k (dictInsert k2 v d) = if k2 = k then some v else dictGet k d := by
  induction d with
  | nil => simp [dictGet, dictInsert]
  | cons e rest ih =>
    by_cases h1 : e.1 = k2
    · by_cases h2 : k2 = k <;> simp [dictGet, dictInsert, h1, h2]
    · by_cases h2 : e.1 = k
      · have h4 : ¬ k = k2 := fun hh => h1 (h2.trans hh)
        have h3 : ¬ k2 = k := fun hh => h4 hh.symm
        simp [dictGet, dictInsert, h1, h2, h3, h4]
      · simp [dictGet, dictInsert, h1, h2, ih]

/-- Any value found after the connector-insertion loop of `update_data`
either belongs to the inserted snapshot, or was already present under a
key the loop never wrote. -/
theorem dictGet_insertAll (cpId : String) (l : List ChargePointConnectorStatus)
    (d : List ((String × Nat) × ChargePointConnectorStatus)) (key : String × Nat)
    (st : ChargePointConnectorStatus)
    (h : dictGet key (insertAll cpId l d) = some st) :
    st ∈ l ∨ (key ∉ l.map (fun cs => (cpId, cs.connector_id)) ∧ dictGet key d = some st) := by
  induction l generalizing d with
  | nil => exact Or.inr ⟨by simp, h⟩
  | cons c rest ih =>
    have h2 : dictGet key (insertAll cpId rest (dictInsert (cpId, c.connector_id) c d)) = some st := h
    rcases ih _ h2 with hl | ⟨hnot, hget⟩
    · exact Or.inl (List.mem_cons_of_mem _ hl)
    · rw [dictGet_dictInsert] at hget
      by_cases hk : (cpId, c.connector_id) = key
      · rw [if_pos hk] at hget
        exact Or.inl (by rw [Option.some.injEq] at hget; rw [← hget]; exact List.mem_cons_self c rest)
      · rw [if_neg hk] at hget
        refine Or.inr ⟨?_, hget⟩
        intro hmem
        rcases List.mem_cons.mp hmem with heq | htail
        · exact hk heq.symm
        · exact hnot htail

/-- The connector-insertion loop of `update_data` leaves every key it
never writes — in particular every connector id absent from the fetched
snapshot — looking up exactly as before. -/
theorem dictGet_insertAll_not_mem (cpId : String) (l : List ChargePointConnectorStatus)
    (d : List ((String × Nat) × ChargePointConnectorStatus)) (key : String × Nat)
    (hnot : key ∉ l.map (fun cs => (cpId, cs.connector_id))) :
    dictGet key (insertAll cpId l d) = dictGet key d := by
  induction l generalizing d with
  | nil => rfl
  | cons cs rest ih =>
    have h1 : key ≠ (cpId, cs.connector_id) := by
      intro h
      exact hnot (by rw [List.map_cons]; rw [h]; exact List.mem_cons_self _ _)
    have h2 : key ∉ rest.map (fun cs => (cpId, cs.connector_id)) := by
      intro h
      exact hnot (by rw [List.map_cons]; exact List.mem_cons_of_mem _ h)
    show dictGet key (insertAll cpId rest (dictInsert (cpId, cs.connector_id) cs d)) = dictGet key d
    rw [ih _ h2, dictGet_dictInsert, if_neg (fun h => h1 h.symm)]

/-! Claim theorems. -/

/-- Claim C1: when the vendor fetch of an `update_data` call that reaches
the wrapped body fails, the call records the error in the log, leaves
every cache entry (charge-point snapshots and all per-connector statuses)
exactly as it was, and returns normally instead of propagating the
exception (the embedded `update_data` is a total function). -/
theorem C1_failed_fetch_preserves_cache (now : Nat) (cpId e : String) (s : HandlerState)
    (hopen : throttleOpen s now = true) :
    update_data now cpId (Except.error e) s =
      (⟨some now, s.cache⟩,
       [⟨LogLevel.debug, "Update data for chargepoint " ++ cpId⟩,
        ⟨LogLevel.error, "Could not update data - " ++ e⟩]) := by
  cases hs : s.lastUpdate with
  | none => simp [update_data, hs, update_data_body]
  | some t =>
    have hlt : ¬ now < t + MIN_TIME_BETWEEN_UPDATES := by
      have := hopen
      rw [throttleOpen, hs] at this
      simpa using this
    simp [update_data, hs, hlt, update_data_body]

/-- Witness for C1 at a concrete failed call with an open throttle. -/
theorem C1_failed_fetch_preserves_cache_witness :
    update_data 5 "CP1" (Except.error "timeout") ⟨none, cache0⟩ =
      (⟨some 5, cache0⟩,
       [⟨LogLevel.debug, "Update data for chargepoint CP1"⟩,
        ⟨LogLevel.error, "Could not update data - timeout"⟩]) := by
  have h := C1_failed_fetch_preserves_cache 5 "CP1" "timeout" ⟨none, cache0⟩ rfl
  exact h

/-- Claim C2: every sequence of `update_data` calls arriving within 30
seconds of a completed call, whatever charge-point ids the calls pass, is
a sequence of no-ops: the handler state — in particular the whole cache —
at the end of the window equals the state at its start. -/
theorem C2_throttle_window_noop (t0 : Nat) (s : HandlerState)
    (calls : List (Nat × String × Except String ChargePointStatus))
    (h0 : s.lastUpdate = some t0)
    (hw : ∀ c ∈ calls, c.1 < t0 + MIN_TIME_BETWEEN_UPDATES) :
    runCalls s calls = s ∧ (runCalls s calls).cache = s.cache := by
  have main : runCalls s calls = s := by
    induction calls with
    | nil => rfl
    | cons c rest ih =>
      have hstep : (update_data c.1 c.2.1 c.2.2 s).1 = s := by
        simp [update_data, h0, hw c (List.mem_cons_self c rest)]
      show runCalls (update_data c.1 c.2.1 c.2.2 s).1 rest = s
      rw [hstep]
      exact ih (fun d hd => hw d (List.mem_cons_of_mem _ hd))
  exact ⟨main, by rw [main]⟩

/-- Witness for C2: two calls for different charge points inside the
window after a call completed at time 100 leave the state untouched. -/
theorem C2_throttle_window_noop_witness :
    runCalls ⟨some 100, cache0⟩
        [(110, "CPA", Except.ok statusB), (129, "CPB", Except.error "down")] =
      ⟨some 100, cache0⟩ ∧
    (runCalls ⟨some 100, cache0⟩
        [(110, "CPA", Except.ok statusB), (129, "CPB", Except.error "down")]).cache = cache0 :=
  C2_throttle_window_noop 100 ⟨some 100, cache0⟩
    [(110, "CPA", Except.ok statusB), (129, "CPB", Except.error "down")] rfl (by decide)

/-- Counterexample to claim C3: with one configured charge point whose
status validation fetch fails, `async_setup` logs the error and still
finishes loading, returning `True` with the failing id kept in the tracked
list — setup is not aborted. -/
theorem C3_counterexample_setup_continues :
    async_setup_model (some ["CP1"]) (fun _ => Except.error "HTTP error") (Except.ok [cpMeta]) =
      Except.ok ⟨true, ["CP1"], [("CP1", cpMeta)],
        [⟨LogLevel.error, "Error adding chargepoint CP1"⟩,
         ⟨LogLevel.info, "Update info for chargepoint CP1"⟩]⟩ := by
  rfl

/-- Claim C3 amended: a status-validation failure for a configured id is
logged and non-fatal; provided the configured list is nonempty and the
subsequent metadata fetch succeeds, setup finishes loading with result
`True` and all configured ids (failing ones included) tracked. -/
theorem C3_validation_failure_nonfatal (ids : List String)
    (fetchStatus : String → Except String ChargePointStatus) (cps : List ChargePoint)
    (hne : ids ≠ []) :
    ∃ out : SetupOutcome,
      async_setup_model (some ids) fetchStatus (Except.ok cps) = Except.ok out ∧
      out.result = true ∧ out.charge_point_ids = ids ∧
      ∀ cp ∈ ids, (∃ e, fetchStatus cp = Except.error e) →
        (⟨LogLevel.error, "Error adding chargepoint " ++ cp⟩ : LogEntry) ∈ out.logs := by
  cases ids with
  | nil => exact absurd rfl hne
  | cons x rest =>
    refine ⟨_, rfl, rfl, rfl, ?_⟩
    intro cp hcp he
    rcases he with ⟨e, he⟩
    apply List.mem_append_left
    refine List.mem_map.mpr ⟨cp, hcp, ?_⟩
    rw [he]

/-- Witness for the amended C3 at a concrete failing configured id. -/
theorem C3_validation_failure_nonfatal_witness :
    ∃ out : SetupOutcome,
      async_setup_model (some ["CP1"]) (fun _ => Except.error "HTTP error") (Except.ok []) =
        Except.ok out ∧
      out.result = true ∧ out.charge_point_ids = ["CP1"] ∧
      ∀ cp ∈ ["CP1"],
        (∃ e, (fun _ => (Except.error "HTTP error" : Except String ChargePointStatus)) cp = Except.error e) →
        (⟨LogLevel.error, "Error adding chargepoint " ++ cp⟩ : LogEntry) ∈ out.logs :=
  C3_validation_failure_nonfatal ["CP1"]
    (fun _ => (Except.error "HTTP error" : Except String ChargePointStatus)) []
    (List.cons_ne_nil _ _)

/-- Claim C4 (code bug): with no measurement data (absent or empty), the
power-sensor update does not complete with zeros. The update itself raises
`AttributeError` because `ChargeampsHandler` has no
`get_connector_measurements`; and even the zero-filling branch of lines
186-191, taken on its own, raises `AttributeError` at `phase.lower()` on
the integer `1` right after setting `active_phase` to the empty string, so
the state is never set to 0 and no per-phase attribute is written. -/
theorem C4_power_sensor_empty_measurements_raises :
    ∀ (now : Nat) (cpId : String) (fetch : Except String ChargePointStatus)
      (hs : HandlerState) (st : PowerSensorState),
      (powerSensorAsyncUpdate now cpId fetch hs st).2 =
        Except.error (PyErr.attributeError "ChargeampsHandler" "get_connector_measurements", st) ∧
      powerProject st none =
        Except.error (PyErr.attributeError "int" "lower",
          { st with _attributes := dictInsert "active_phase" (AttrVal.str "") st._attributes }) ∧
      powerProject st (some []) =
        Except.error (PyErr.attributeError "int" "lower",
          { st with _attributes := dictInsert "active_phase" (AttrVal.str "") st._attributes }) := by
  intro now cpId fetch hs st
  exact ⟨rfl, rfl, rfl⟩

section

attribute [local semireducible] Rat.mul Rat.add Rat.sub Rat.inv

/-- Claim C5 (code bug): with measurements L1 10 A / 230 V, L2 and L3 idle
at 230 V, the power-sensor update as written raises `AttributeError`
(`ChargeampsHandler` has no `get_connector_measurements`) and never sets
the state; the projection of lines 172-185, the evident intent, would
produce exactly the claimed values: state 2300, `active_phase` "L1",
`l1_power` 2300, `l2_power` 0, `l3_power` 0. -/
theorem C5_power_sensor_concrete :
    (powerSensorAsyncUpdate 0 "CP1" (Except.ok statusB) ⟨none, cache0⟩ emptyPowerState).2 =
      Except.error (PyErr.attributeError "ChargeampsHandler" "get_connector_measurements", emptyPowerState) ∧
    powerProject emptyPowerState (some c5Measurements) =
      Except.ok ⟨some 2300,
        [("active_phase", AttrVal.str "L1"),
         ("l1_power", AttrVal.num 2300), ("l1_current", AttrVal.num 10),
         ("l2_power", AttrVal.num 0), ("l2_current", AttrVal.num 0),
         ("l3_power", AttrVal.num 0), ("l3_current", AttrVal.num 0)]⟩ := by
  exact ⟨rfl, by decide⟩

end

/-- Counterexample to claim C6: a successful refresh of CP1 whose snapshot
reports only connector 1 leaves the connector-2 entry from an earlier
fetch in the cache, so not every cached connector entry for CP1 belongs to
the new snapshot. -/
theorem C6_counterexample_stale_connector :
    dictGet ("CP1", 2) ((update_data_body "CP1" (Except.ok statusB) cacheA).1).connector = some csOld ∧
    csOld ∉ statusB.connector_statuses := by
  decide

/-- Claim C6 amended: after a successful `update_data` refresh of any
cache, the charge-point snapshot is replaced wholesale; every cached
per-connector entry for that charge point whose connector id appears in
the fetched snapshot belongs to that snapshot; and every connector id
absent from the snapshot looks up exactly as it did before the refresh,
so entries from earlier fetches survive under those ids. -/
theorem C6_snapshot_amended (cpId : String) (S : ChargePointStatus) (c : CacheState) :
    dictGet cpId ((update_data_body cpId (Except.ok S) c).1).chargepoint = some S ∧
    (∀ (k : Nat) (st : ChargePointConnectorStatus),
      k ∈ S.connector_statuses.map (fun cs => cs.connector_id) →
      dictGet (cpId, k) ((update_data_body cpId (Except.ok S) c).1).connector = some st →
      st ∈ S.connector_statuses) ∧
    (∀ k : Nat, k ∉ S.connector_statuses.map (fun cs => cs.connector_id) →
      dictGet (cpId, k) ((update_data_body cpId (Except.ok S) c).1).connector =
        dictGet (cpId, k) c.connector) := by
  refine ⟨?_, ?_, ?_⟩
  · show dictGet cpId (dictInsert cpId S c.chargepoint) = some S
    rw [dictGet_dictInsert]
    simp
  · intro k st hk h
    have h2 : dictGet (cpId, k) (insertAll cpId S.connector_statuses c.connector) = some st := h
    rcases dictGet_insertAll cpId S.connector_statuses c.connector (cpId, k) st h2 with hl | ⟨hnot, _⟩
    · exact hl
    · exfalso
      rcases List.mem_map.mp hk with ⟨cs, hcs, hid⟩
      exact hnot (List.mem_map.mpr ⟨cs, hcs, by rw [hid]⟩)
  · intro k hk
    show dictGet (cpId, k) (insertAll cpId S.connector_statuses c.connector) = dictGet (cpId, k) c.connector
    apply dictGet_insertAll_not_mem
    intro hmem
    rcases List.mem_map.mp hmem with ⟨cs, hcs, hid⟩
    exact hk (List.mem_map.mpr ⟨cs, hcs, congrArg Prod.snd hid⟩)

/-- Witness for the amended C6 on the mixed cache of the counterexample:
connector 1 (present in the snapshot) ends up holding the snapshot's
entry, while connector 2 (absent from it) looks up exactly as before the
refresh. -/
theorem C6_snapshot_amended_witness :
    csNew ∈ statusB.connector_statuses ∧
    dictGet ("CP1", 2) ((update_data_body "CP1" (Except.ok statusB) cacheA).1).connector =
      dictGet ("CP1", 2) cacheA.connector :=
  ⟨(C6_snapshot_amended "CP1" statusB cacheA).2.1 1 csNew (by decide) (by decide),
   (C6_snapshot_amended "CP1" statusB cacheA).2.2 2 (by decide)⟩

/-- Claim C7 (code bug): the unique-id properties do produce the stable
identifiers `chargeamps_<charge_point_id>_<connector_id>` (with a `_power`
suffix for the power sensor), but `ChargeampsSensor.__init__` passes an
extra `self` to `ChargeampsEntity.__init__`, so constructing a
`ChargeampsSensor` raises `TypeError` and no such entity ever carries its
identifier (the platform setup constructs one and dies there). -/
theorem C7_unique_id_code_bug :
    (∀ (name cpId : String) (connId : Nat),
      ChargeampsSensor.construct name cpId connId =
        Except.error (PyErr.typeError "ChargeampsEntity takes 5 positional arguments but 6 were given")) ∧
    (∀ (cpId : String) (connId : Nat),
      ChargeampsEntity.unique_id cpId connId = "chargeamps_" ++ cpId ++ "_" ++ toString connId) ∧
    (∀ (cpId : String) (connId : Nat),
      ChargeampsPowerSensor.unique_id cpId connId =
        "chargeamps_" ++ cpId ++ "_" ++ toString connId ++ "_power") :=
  ⟨fun _ _ _ => rfl, fun _ _ => rfl, fun _ _ => rfl⟩

/-- Claim C8: an `enable` or `disable` service call whose parameters name
no charge point and no connector targets connector 1 of the first
discovered charge point (the head of the handler id list). -/
theorem C8_enable_disable_defaults (x : String) (rest : List String)
    (h : ChargeampsHandler) (p : List (String × PVal))
    (hmk : ChargeampsHandler.make (x :: rest) = Except.ok h)
    (hcp : dictGet "chargepoint" p = none)
    (hconn : dictGet "connector" p = none) :
    async_enable_ev h p = ⟨PVal.s x, PVal.n 1, "On"⟩ ∧
    async_disable_ev h p = ⟨PVal.s x, PVal.n 1, "Off"⟩ := by
  have hh : h = ⟨x :: rest, x, 1⟩ := by
    rw [ChargeampsHandler.make] at hmk
    exact (Except.ok.injEq _ _).mp hmk.symm
  subst hh
  constructor <;> simp [async_enable_ev, async_disable_ev, pyGetD, hcp, hconn]

/-- Witness for C8: a handler over two charge points and an empty
parameter mapping. -/
theorem C8_enable_disable_defaults_witness :
    async_enable_ev ⟨["CP1", "CP2"], "CP1", 1⟩ [] = ⟨PVal.s "CP1", PVal.n 1, "On"⟩ ∧
    async_disable_ev ⟨["CP1", "CP2"], "CP1", 1⟩ [] = ⟨PVal.s "CP1", PVal.n 1, "Off"⟩ :=
  C8_enable_disable_defaults "CP1" ["CP2"] ⟨["CP1", "CP2"], "CP1", 1⟩ [] rfl rfl rfl

/-- Claim C9: a `set_max_current` service call without a `max_current`
parameter logs a warning for the caught `KeyError` and then fails with an
uncaught `NameError` (Python raises `UnboundLocalError`, a `NameError`
subclass, reading the never-assigned `max_current` local). -/
theorem C9_missing_max_current_raises (h : ChargeampsHandler) (p : List (String × PVal))
    (hmiss : dictGet "max_current" p = none) :
    async_set_max_current h p =
      ([⟨LogLevel.warning, "Current value is not correct."⟩],
       Except.error (PyErr.nameError "max_current")) := by
  simp [async_set_max_current, hmiss]

/-- Witness for C9 at an empty parameter mapping. -/
theorem C9_missing_max_current_raises_witness :
    async_set_max_current ⟨["CP1"], "CP1", 1⟩ [] =
      ([⟨LogLevel.warning, "Current value is not correct."⟩],
       Except.error (PyErr.nameError "max_current")) :=
  C9_missing_max_current_raises ⟨["CP1"], "CP1", 1⟩ [] rfl

/-- Claim C10: a `ChargeampsSensor` update that finds a cached connector
status on a not-yet-interviewed sensor raises `AttributeError`, because
`interview` calls `handler.get_connector_info`, a method
`ChargeampsHandler` does not define. -/
theorem C10_uninterviewed_update_raises (now : Nat) (cpId : String) (connId : Nat)
    (fetch : Except String ChargePointStatus) (hs : HandlerState) (st : SensorState)
    (hint : st._interviewed = false)
    (hstat : (dictGet (cpId, connId) ((update_data now cpId fetch hs).1).cache.connector).isSome = true) :
    ∃ st2 : SensorState,
      (chargeampsSensorAsyncUpdate now cpId connId fetch hs st).2 =
        Except.error (PyErr.attributeError "ChargeampsHandler" "get_connector_info", st2) := by
  obtain ⟨cs, hcs⟩ := Option.isSome_iff_exists.mp hstat
  refine ⟨{ st with
      _state := some cs.status,
      _attributes :=
        dictInsert "total_consumption_kwh" (AttrVal.num (pyRound cs.total_consumption_kwh 3)) st._attributes },
    ?_⟩
  show chargeampsSensorProject st (dictGet (cpId, connId) ((update_data now cpId fetch hs).1).cache.connector) =
    Except.error (PyErr.attributeError "ChargeampsHandler" "get_connector_info",
      { st with
          _state := some cs.status,
          _attributes :=
            dictInsert "total_consumption_kwh" (AttrVal.num (pyRound cs.total_consumption_kwh 3)) st._attributes })
  rw [hcs]
  simp [chargeampsSensorProject, hint, interview]

/-- Witness for C10: a throttled update on a cache already holding a
connector status, with an uninterviewed sensor. -/
theorem C10_uninterviewed_update_raises_witness :
    ∃ st2 : SensorState,
      (chargeampsSensorAsyncUpdate 100 "CP1" 1 (Except.error "down") ⟨some 100, cacheC⟩ ⟨none, [], false⟩).2 =
        Except.error (PyErr.attributeError "ChargeampsHandler" "get_connector_info", st2) :=
  C10_uninterviewed_update_raises 100 "CP1" 1 (Except.error "down") ⟨some 100, cacheC⟩
    ⟨none, [], false⟩ rfl (by decide)

end Chargeamps
